import Mathlib

/-!
Verification of the rule-based text classification core of the filo social
application: the sentiment and moderation logic of the post-creation route
(src/app/api/posts/postId/route.ts, POST handler), the standalone moderation
endpoint, the caption suggestion list of create-post-form.tsx, and the
sentiment type guard of the shared type definitions.

JavaScript strings are modelled as lists of Unicode code points (List Nat);
toLowerCase and toUpperCase are modelled as the ASCII case mappings applied
pointwise, and String.prototype.includes as substring containment.
-/

/-- A JavaScript string, modelled as its list of Unicode code points. -/
abbrev JsStr := List Nat

/-- Code points of a Lean string literal, used to transcribe the literals of the
source into the model. -/
def cp (s : String) : JsStr := s.toList.map Char.toNat

/-- Lowercasing of a single code point. This models only the ASCII fragment of
String.prototype.toLowerCase: on code points below 128 it agrees with the
JavaScript function, while Unicode case conversion (for example the Kelvin sign
or the dotted capital I) is outside the model, so theorems that rely on case
mapping are stated for ASCII texts only. -/
def lowerChar (c : Nat) : Nat := if 65 ≤ c ∧ c ≤ 90 then c + 32 else c

/-- Uppercasing of a single code point. This models only the ASCII fragment of
String.prototype.toUpperCase: on code points below 128 it agrees with the
JavaScript function, while Unicode case conversion (for example the long s,
whose uppercase is the ASCII capital S) is outside the model, so theorems that
rely on case mapping are stated for ASCII texts only. -/
def upperChar (c : Nat) : Nat := if 97 ≤ c ∧ c ≤ 122 then c - 32 else c

/-- Model of String.prototype.toLowerCase, faithful on ASCII texts. -/
def toLowerCase (s : JsStr) : JsStr := s.map lowerChar

/-- Model of String.prototype.toUpperCase, faithful on ASCII texts. -/
def toUpperCase (s : JsStr) : JsStr := s.map upperChar

/-- Model of String.prototype.includes: does sub occur as a contiguous
substring of s? -/
def includes (s sub : JsStr) : Bool :=
  match s with
  | [] => sub.isEmpty
  | _ :: t => sub.isPrefixOf s || includes t sub

/-- The whitespace code points stripped by String.prototype.trim (ASCII part). -/
def jsWhitespace (c : Nat) : Bool :=
  c = 32 || c = 9 || c = 10 || c = 13 || c = 11 || c = 12

/-- Model of String.prototype.trim: strip whitespace from both ends. -/
def jsTrim (s : JsStr) : JsStr :=
  ((s.dropWhile jsWhitespace).reverse.dropWhile jsWhitespace).reverse

/-- The positive lexicon of the POST handler in the posts route:
const positiveWords = ... -/
def positiveWords : List JsStr :=
  [cp "great", cp "awesome", cp "amazing", cp "love", cp "excellent", cp "fantastic"]

/-- The negative lexicon of the POST handler in the posts route:
const negativeWords = ... -/
def negativeWords : List JsStr :=
  [cp "bad", cp "terrible", cp "hate", cp "awful", cp "horrible", cp "worst"]

/-- The banned-term lexicon of the POST handler in the posts route:
const bannedWords = ... -/
def bannedWords : List JsStr :=
  [cp "spam", cp "scam", cp "banned_word"]

/-- The three-valued sentiment union type of the source. -/
inductive SentimentLabel
  | positive
  | neutral
  | negative
  deriving DecidableEq, Repr

/-- const hasPositive = positiveWords.some((word) => lowerContent.includes(word)) -/
def hasPositive (lowerContent : JsStr) : Bool :=
  positiveWords.any (fun word => includes lowerContent word)

/-- const hasNegative = negativeWords.some((word) => lowerContent.includes(word)) -/
def hasNegative (lowerContent : JsStr) : Bool :=
  negativeWords.any (fun word => includes lowerContent word)

/-- The sentiment computation of the POST handler: sentiment starts Neutral; if
hasPositive and not hasNegative it becomes Positive, else if hasNegative and not
hasPositive it becomes Negative. -/
def sentimentLabel (content : JsStr) : SentimentLabel :=
  let lowerContent := toLowerCase content
  if hasPositive lowerContent && !(hasNegative lowerContent) then .positive
  else if hasNegative lowerContent && !(hasPositive lowerContent) then .negative
  else .neutral

/-- const flagged = bannedWords.some((word) => lowerContent.includes(word)) -/
def flaggedOf (content : JsStr) : Bool :=
  bannedWords.any (fun word => includes (toLowerCase content) word)

/-- The fixed reason string of the POST handler. -/
def reasonText : JsStr := cp "Contains inappropriate content"

/-- const flagReason = flagged ? reason-string : undefined -/
def flagReasonOf (content : JsStr) : Option JsStr :=
  if flaggedOf content then some reasonText else none

/-- The moderation verdict the POST handler produces for a text: the flagged
bit and the optional reason string. -/
structure ModerationVerdict where
  flagged : Bool
  reason : Option JsStr
  deriving DecidableEq, Repr

/-- The moderation computation of the POST handler, packaged as one verdict. -/
def moderate (content : JsStr) : ModerationVerdict :=
  { flagged := flaggedOf content, reason := flagReasonOf content }

/-- Modelled from the spec: the matched-terms sequence of the ModerationVerdict
(section 4.2 step 3) is not computed by the route code, which only keeps the
boolean; following the spec it is the sublist of banned terms occurring as
substrings of the lowercased text, in lexicon order. -/
def matchedTerms (content : JsStr) : List JsStr :=
  bannedWords.filter (fun word => includes (toLowerCase content) word)

/-- Follows the spec counting rule (section 4.3 step 2), for comparison with
the code: the number of positive-lexicon terms occurring as substrings of the
lowercased text, each term counted at most once. -/
def specPositiveHits (content : JsStr) : Nat :=
  (positiveWords.filter (fun word => includes (toLowerCase content) word)).length

/-- Follows the spec counting rule (section 4.3 step 3), for comparison with
the code: the number of negative-lexicon terms occurring as substrings of the
lowercased text, each term counted at most once. -/
def specNegativeHits (content : JsStr) : Nat :=
  (negativeWords.filter (fun word => includes (toLowerCase content) word)).length

/-- What the POST handler stores and returns for a created post, restricted to
the classification fields. -/
structure EvalResult where
  sentiment : SentimentLabel
  flagged : Bool
  flagReason : Option JsStr
  deriving DecidableEq, Repr

/-- The response of the POST handler: a 400 validation error or a created post. -/
inductive PostResponse
  | badRequest (error : JsStr)
  | created (result : EvalResult)
  deriving DecidableEq, Repr

/-- The POST handler of the posts route, restricted to its pure
validation-and-classification behaviour (authentication and persistence are
external effects). The content argument is Option to model an absent or null
content field of the request body; the falsiness test bang-content is true for
both null and the empty string. -/
def POSTcreate : Option JsStr → PostResponse
  | none => .badRequest (cp "Content is required")
  | some content =>
    if content.isEmpty || (jsTrim content).isEmpty then
      .badRequest (cp "Content is required")
    else if content.length > 2000 then
      .badRequest (cp "Content must be less than 2000 characters")
    else
      .created { sentiment := sentimentLabel content
                 flagged := flaggedOf content
                 flagReason := flagReasonOf content }

/-- The standalone moderation endpoint (src/unnamed/part_004): it destructures
text from the request body and returns flagged = text.includes of the banned
word; when text is null or absent, the member access on null raises a
TypeError instead of producing a verdict. -/
def moderationEndpoint : Option JsStr → Except JsStr Bool
  | none => .error (cp "TypeError")
  | some text => .ok (includes text (cp "banned_word"))

/-- The constant caption list of create-post-form.tsx. -/
def SUGGESTED_CAPTIONS : List JsStr :=
  [cp "Feeling inspired by today\x27s flow! 🌊",
   cp "Where ideas become reality. #FluxApp",
   cp "Just another day in the stream of thoughts. ✨"]

/-- The caption suggestion operation: the create-post form renders the constant
SUGGESTED_CAPTIONS list while the user composes, independent of any composing
context, so the operation is the constant function of the optional context. -/
def generateCaptions (_context : Option JsStr) : List JsStr := SUGGESTED_CAPTIONS

/-- A JavaScript runtime value, as far as the type guards inspect it. -/
inductive JsValue
  | str (s : JsStr)
  | num (n : Int)
  | boolean (b : Bool)
  | null
  | undef
  deriving DecidableEq, Repr

/-- The type guard isSentimentType of the shared type definitions:
value is one of the three sentiment strings. -/
def isSentimentType (value : JsValue) : Bool :=
  value == JsValue.str (cp "Positive") ||
  value == JsValue.str (cp "Neutral") ||
  value == JsValue.str (cp "Negative")

/-- The SENTIMENT_TYPES constant array of the shared type definitions. -/
def SENTIMENT_TYPES : List JsStr := [cp "Positive", cp "Neutral", cp "Negative"]

/-! Helper lemmas. -/

theorem lowerChar_upperChar (c : Nat) : lowerChar (upperChar c) = lowerChar c := by
  unfold lowerChar upperChar
  split <;> split <;> first | rfl | (split <;> omega)

theorem lowerChar_lowerChar (c : Nat) : lowerChar (lowerChar c) = lowerChar c := by
  unfold lowerChar
  split <;> [split <;> omega; rfl]

theorem toLowerCase_toUpperCase (s : JsStr) :
    toLowerCase (toUpperCase s) = toLowerCase s := by
  simp [toLowerCase, toUpperCase, Function.comp, lowerChar_upperChar]

theorem toLowerCase_toLowerCase (s : JsStr) :
    toLowerCase (toLowerCase s) = toLowerCase s := by
  simp [toLowerCase, Function.comp, lowerChar_lowerChar]

theorem any_eq_pos_filter_length {α : Type} (l : List α) (p : α → Bool) :
    l.any p = decide (0 < (l.filter p).length) := by
  induction l with
  | nil => rfl
  | cons a t ih => by_cases h : p a <;> simp [h, ih]

theorem any_eq_not_filter_isEmpty {α : Type} (l : List α) (p : α → Bool) :
    l.any p = !(l.filter p).isEmpty := by
  induction l with
  | nil => rfl
  | cons a t ih => by_cases h : p a <;> simp [h, ih]

theorem hasPositive_eq_specHits (t : JsStr) :
    hasPositive (toLowerCase t) = decide (0 < specPositiveHits t) := by
  unfold hasPositive specPositiveHits
  exact any_eq_pos_filter_length _ _

theorem hasNegative_eq_specHits (t : JsStr) :
    hasNegative (toLowerCase t) = decide (0 < specNegativeHits t) := by
  unfold hasNegative specNegativeHits
  exact any_eq_pos_filter_length _ _

theorem moderate_congr_lower (s t : JsStr) (h : toLowerCase s = toLowerCase t) :
    moderate s = moderate t := by
  simp only [moderate, flaggedOf, flagReasonOf, h]

theorem sentimentLabel_congr_lower (s t : JsStr) (h : toLowerCase s = toLowerCase t) :
    sentimentLabel s = sentimentLabel t := by
  simp only [sentimentLabel, h]

/-! The claims. -/

/-- C1, counterexample: on the text "great awesome bad" the positive hit count
(2) strictly exceeds the negative hit count (1), yet the code labels the text
Neutral, not Positive: the code compares boolean presence, not hit counts. -/
theorem c1_counterexample :
    specNegativeHits (cp "great awesome bad") < specPositiveHits (cp "great awesome bad") ∧
    sentimentLabel (cp "great awesome bad") ≠ SentimentLabel.positive := by
  decide

/-- C1 (amended): the label is decided by presence, not by comparing counts:
the label is Positive exactly when at least one positive-lexicon term occurs
and no negative-lexicon term occurs, and Negative exactly when at least one
negative-lexicon term occurs and no positive-lexicon term occurs. -/
theorem c1_label_by_presence (t : JsStr) :
    (sentimentLabel t = SentimentLabel.positive ↔
      0 < specPositiveHits t ∧ specNegativeHits t = 0) ∧
    (sentimentLabel t = SentimentLabel.negative ↔
      0 < specNegativeHits t ∧ specPositiveHits t = 0) := by
  have hp := hasPositive_eq_specHits t
  have hn := hasNegative_eq_specHits t
  unfold sentimentLabel
  by_cases hP : hasPositive (toLowerCase t) = true <;>
    by_cases hN : hasNegative (toLowerCase t) = true <;>
      simp [hP, hN] at hp hn ⊢ <;> omega

/-- C2, counterexample: the code's sentiment analysis result is the bare label
and is identical on "great" and "great awesome", although the specified
positiveHits count differs (1 versus 2); hence the result carries no field
equal to the specified positiveHits count. -/
theorem c2_counterexample :
    sentimentLabel (cp "great") = sentimentLabel (cp "great awesome") ∧
    specPositiveHits (cp "great") = 1 ∧
    specPositiveHits (cp "great awesome") = 2 := by
  decide

/-- C2 (amended): the analysis returns only a label and computes boolean
presence flags, not counts: hasPositive is true exactly when the number of
distinct positive-lexicon terms occurring as substrings of the lowercased
text is positive, and hasNegative likewise for the negative lexicon. -/
theorem c2_presence_flags (t : JsStr) :
    hasPositive (toLowerCase t) = decide (0 < specPositiveHits t) ∧
    hasNegative (toLowerCase t) = decide (0 < specNegativeHits t) :=
  ⟨hasPositive_eq_specHits t, hasNegative_eq_specHits t⟩

/-- C3: whenever the positive and negative hit counts are equal and positive,
both presence flags are set, neither branch of the label decision fires, and
the label stays Neutral. -/
theorem c3_tie_neutral (t : JsStr) (heq : specPositiveHits t = specNegativeHits t)
    (hpos : 0 < specPositiveHits t) :
    sentimentLabel t = SentimentLabel.neutral := by
  have hP : hasPositive (toLowerCase t) = true := by
    rw [hasPositive_eq_specHits t]; simpa using hpos
  have hN : hasNegative (toLowerCase t) = true := by
    rw [hasNegative_eq_specHits t]; simp; omega
  simp [sentimentLabel, hP, hN]

/-- Witness for C3 at the text "love hate": one positive and one negative hit,
and the label is Neutral. -/
theorem c3_witness :
    specPositiveHits (cp "love hate") = specNegativeHits (cp "love hate") ∧
    0 < specPositiveHits (cp "love hate") ∧
    sentimentLabel (cp "love hate") = SentimentLabel.neutral :=
  ⟨by decide, by decide, c3_tie_neutral (cp "love hate") (by decide) (by decide)⟩

/-- C4, counterexample: the standalone moderation endpoint cited by the claim
is case-sensitive: it matches the raw text, so it flags the text banned_word
but not its uppercased form, and uppercasing changes its verdict. -/
theorem c4_counterexample :
    moderationEndpoint (some (cp "banned_word")) = Except.ok true ∧
    moderationEndpoint (some (toUpperCase (cp "banned_word"))) = Except.ok false :=
  ⟨rfl, rfl⟩

/-- C4 (amended): case-insensitivity holds for the posts route on ASCII text:
for every text of ASCII code points, uppercasing or lowercasing the text
changes neither the moderation verdict nor the sentiment label, because both
are computed from the lowercased text. The standalone moderation endpoint is
case-sensitive, and beyond ASCII the Unicode case conversion of the runtime is
outside this model. -/
theorem c4_route_ascii_case_insensitive (t : JsStr) (h : ∀ c ∈ t, c < 128) :
    moderate (toUpperCase t) = moderate t ∧
    moderate (toLowerCase t) = moderate t ∧
    sentimentLabel (toUpperCase t) = sentimentLabel t ∧
    sentimentLabel (toLowerCase t) = sentimentLabel t :=
  ⟨moderate_congr_lower _ _ (toLowerCase_toUpperCase t),
   moderate_congr_lower _ _ (toLowerCase_toLowerCase t),
   sentimentLabel_congr_lower _ _ (toLowerCase_toUpperCase t),
   sentimentLabel_congr_lower _ _ (toLowerCase_toLowerCase t)⟩

/-- Witness for C4 at the ASCII text Love SPAM: its moderation verdict and
sentiment label are unchanged by uppercasing and by lowercasing. -/
theorem c4_witness :
    moderate (toUpperCase (cp "Love SPAM")) = moderate (cp "Love SPAM") ∧
    moderate (toLowerCase (cp "Love SPAM")) = moderate (cp "Love SPAM") ∧
    sentimentLabel (toUpperCase (cp "Love SPAM")) = sentimentLabel (cp "Love SPAM") ∧
    sentimentLabel (toLowerCase (cp "Love SPAM")) = sentimentLabel (cp "Love SPAM") :=
  c4_route_ascii_case_insensitive (cp "Love SPAM") (by decide)

/-- C5, counterexample: the standalone moderation endpoint cited by the claim
violates the invariant: on the text SCAM its verdict is not flagged (the
endpoint matches case-sensitively and knows only one banned word), while the
matched banned-terms sequence of the spec is non-empty. -/
theorem c5_counterexample :
    moderationEndpoint (some (cp "SCAM")) = Except.ok false ∧
    matchedTerms (cp "SCAM") = [cp "scam"] :=
  ⟨rfl, by decide⟩

/-- C5 (amended): the moderation verdict of the posts route satisfies the
invariant: its flagged bit is true exactly when the matched-terms sequence is
non-empty, and the reason string is present exactly when flagged is true. The
verdict of the standalone moderation endpoint does not: it carries no reason
and its case-sensitive flag can be false with matched terms present. -/
theorem c5_flag_consistency (t : JsStr) :
    (moderate t).flagged = !(matchedTerms t).isEmpty ∧
    ((moderate t).reason.isSome ↔ (moderate t).flagged = true) := by
  constructor
  · unfold moderate flaggedOf matchedTerms
    exact any_eq_not_filter_isEmpty _ _
  · unfold moderate flagReasonOf
    by_cases h : flaggedOf t = true <;> simp [h]

/-- C6: for content that passes validation, the POST handler stores and
returns the sentiment-engine result even when the moderation verdict is
flagged; flagging never suppresses sentiment classification. -/
theorem c6_flagged_still_classified (t : JsStr)
    (hok : (t.isEmpty || (jsTrim t).isEmpty) = false)
    (hlen : ¬ t.length > 2000)
    (hflag : flaggedOf t = true) :
    POSTcreate (some t) = PostResponse.created
      { sentiment := sentimentLabel t, flagged := true, flagReason := some reasonText } := by
  simp [POSTcreate, hok, hlen, flagReasonOf, hflag]

/-- Witness for C6 at the text "love spam": it is flagged, and the created
post still carries the Positive sentiment computed for it. -/
theorem c6_witness :
    POSTcreate (some (cp "love spam")) = PostResponse.created
      { sentiment := SentimentLabel.positive, flagged := true,
        flagReason := some reasonText } := by
  rw [c6_flagged_still_classified (cp "love spam") (by decide) (by decide) (by decide)]
  decide

/-- C7, counterexample: null or absent text is not normalized to the empty
string: the standalone moderation endpoint raises a TypeError on null text,
while on the empty string it completes with a verdict. -/
theorem c7_counterexample :
    moderationEndpoint none = Except.error (cp "TypeError") ∧
    moderationEndpoint (some []) = Except.ok false :=
  ⟨rfl, rfl⟩

/-- C7 (amended): null or absent text never reaches classification: the
standalone moderation endpoint raises a TypeError instead of returning a
verdict, and the post-creation route rejects absent content with the same 400
validation error it gives the empty string, without classifying. -/
theorem c7_null_rejected_not_normalized :
    moderationEndpoint none = Except.error (cp "TypeError") ∧
    POSTcreate none = PostResponse.badRequest (cp "Content is required") ∧
    POSTcreate (some []) = PostResponse.badRequest (cp "Content is required") := by
  refine ⟨rfl, rfl, ?_⟩
  decide

/-- C8: for every context, including an absent one, the caption suggestion
operation returns between 3 and 5 captions and they are pairwise distinct. -/
theorem c8_caption_bounds (context : Option JsStr) :
    3 ≤ (generateCaptions context).length ∧
    (generateCaptions context).length ≤ 5 ∧
    (generateCaptions context).Nodup := by
  unfold generateCaptions
  refine ⟨by decide, by decide, by decide⟩

/-- C9: on the empty string, moderation is not flagged with no matched terms
and no reason, and sentiment is Neutral with zero hits on both sides. -/
theorem c9_empty_input :
    moderate [] = { flagged := false, reason := none } ∧
    matchedTerms [] = [] ∧
    sentimentLabel [] = SentimentLabel.neutral ∧
    specPositiveHits [] = 0 ∧ specNegativeHits [] = 0 := by
  decide

/-- C10: the type guard isSentimentType accepts a value exactly when it is one
of the three strings of the SENTIMENT_TYPES constant array. -/
theorem c10_isSentimentType_iff (v : JsValue) :
    isSentimentType v = true ↔ v ∈ SENTIMENT_TYPES.map JsValue.str := by
  cases v <;> simp [isSentimentType, SENTIMENT_TYPES, or_assoc]
